import Mathlib

/-!
Verification of the `Command` how-to notebook
(`docs/docs/how-tos/command.ipynb`).

The notebook defines two example programs on a state `{"foo": str}`:

* the basic-usage graph, where `node_a` returns a `Command` choosing a
  value `v` at random, updating `{"foo": v}` and routing to `node_b` or
  `node_c`, and `node_b` / `node_c` append `"b"` / `"c"` to `state["foo"]`;
* the parent/subgraph variant, where `node_a` lives inside a one-node
  subgraph, routes with `graph=Command.PARENT`, and the shared key `foo`
  carries an `operator.add` reducer, so `node_b` / `node_c` return only
  the character to append.

Python dicts over string keys and string values are embedded as
association lists, `random.choice` is given an explicit oracle argument,
and the library runtime (apply-update / routing / invoke), which is not
part of the source files provided, is modelled from the spec.
-/

/-- A Python `dict` with string keys and string values, as an association
list with the first binding of a key the visible one. -/
abbrev PyDict := List (String × String)

/-- `d[key]` lookup; `none` is a `KeyError`. -/
def dictGet : PyDict → String → Option String
  | [], _ => none
  | (k, v) :: rest, key => if k = key then some v else dictGet rest key

/-- `d[key] = val`: replace the binding of `key` if present, else append it. -/
def dictSet : PyDict → String → String → PyDict
  | [], key, val => [(key, val)]
  | (k, v) :: rest, key, val =>
      if k = key then (k, val) :: rest else (k, v) :: dictSet rest key val

/-- The list of keys of a dict. -/
def dictKeys (d : PyDict) : List String := d.map Prod.fst

/-- `random.choice(l)`: the random draw is made explicit as an oracle
number `g`; the chosen element is `l[g % len(l)]`. -/
def random_choice (l : List String) (g : Nat) : String :=
  l.getD (g % l.length) ""

/-- Which graph a `Command`'s `goto` is resolved against: the current
graph (Python `graph=None`, the default) or the closest parent graph. -/
inductive GraphScope
  | current
  | parent
  deriving DecidableEq

/-- The `Command` object of `langgraph.types`: a state update, a routing
directive, and the graph in which the routing directive is resolved. -/
structure Command where
  update : PyDict
  goto : String
  graph : GraphScope
  deriving DecidableEq

/-- `Command.PARENT`, the sentinel selecting the closest parent graph. -/
def Command.PARENT : GraphScope := GraphScope.parent

/-- The `START` entry point of a `StateGraph`. -/
def START : String := "__start__"

/-- The part of a `StateGraph` builder the notebook exercises: the node
names added with `add_node` and the fixed edges added with `add_edge`. -/
structure StateGraphBuilder where
  nodes : List String
  edges : List (String × String)
  deriving DecidableEq

/-- `StateGraph(State)`: a fresh builder. -/
def StateGraph : StateGraphBuilder := ⟨[], []⟩

/-- `builder.add_node(name, fn)` (or `add_node(fn)` with the node named
after the function). -/
def StateGraphBuilder.add_node (b : StateGraphBuilder) (name : String) :
    StateGraphBuilder :=
  ⟨b.nodes ++ [name], b.edges⟩

/-- `builder.add_edge(a, b)`. -/
def StateGraphBuilder.add_edge (b : StateGraphBuilder) (e1 e2 : String) :
    StateGraphBuilder :=
  ⟨b.nodes, b.edges ++ [(e1, e2)]⟩

namespace Basic

/-- Basic-usage `node_a`: draw `value = random.choice(["a", "b"])`, set
`goto` to `"node_b"` if `value == "a"` else `"node_c"`, and return
`Command(update={"foo": value}, goto=goto)`. -/
def node_a (state : PyDict) (g : Nat) : Command :=
  let value := random_choice ["a", "b"] g
  let goto := if value = "a" then "node_b" else "node_c"
  ⟨[("foo", value)], goto, GraphScope.current⟩

/-- Basic-usage `node_b`: return `{"foo": state["foo"] + "b"}`; the
subscript raises `KeyError` (here `none`) if `"foo"` is absent. -/
def node_b (state : PyDict) : Option PyDict :=
  (dictGet state "foo").map fun x => [("foo", x ++ "b")]

/-- Basic-usage `node_c`: return `{"foo": state["foo"] + "c"}`. -/
def node_c (state : PyDict) : Option PyDict :=
  (dictGet state "foo").map fun x => [("foo", x ++ "c")]

/-- The basic-usage builder: edge `START → node_a`, then nodes
`node_a`, `node_b`, `node_c`, and no other edges. -/
def builder : StateGraphBuilder :=
  (((StateGraph.add_edge START "node_a").add_node "node_a").add_node
    "node_b").add_node "node_c"

end Basic

namespace Parent

/-- Subgraph `node_a` of the parent-graph example: same random choice and
update as the basic one, but the returned `Command` carries
`graph=Command.PARENT`, so `goto` names a node of the parent graph. -/
def node_a (state : PyDict) (g : Nat) : Command :=
  let value := random_choice ["a", "b"] g
  let goto := if value = "a" then "node_b" else "node_c"
  ⟨[("foo", value)], goto, Command.PARENT⟩

/-- `StateGraph(State).add_node(node_a).add_edge(START, "node_a")`, the
builder of the one-node subgraph. -/
def subgraphBuilder : StateGraphBuilder :=
  (StateGraph.add_node "node_a").add_edge START "node_a"

/-- Parent-graph `node_b`: return `{"foo": "b"}`; the `operator.add`
reducer on `foo` performs the append. -/
def node_b (state : PyDict) : PyDict := [("foo", "b")]

/-- Parent-graph `node_c`: return `{"foo": "c"}`. -/
def node_c (state : PyDict) : PyDict := [("foo", "c")]

/-- The parent builder: edge `START → subgraph`, the compiled subgraph
added as the single node `"subgraph"`, then `node_b` and `node_c`. -/
def builder : StateGraphBuilder :=
  (((StateGraph.add_edge START "subgraph").add_node "subgraph").add_node
    "node_b").add_node "node_c"

end Parent

/-- Modelled from the spec: the external library's default channel
behaviour for an unannotated key (`foo: str` in the basic example) —
each key of the update overwrites the state's binding. The library's
state-merging engine is not among the provided source files. -/
def applyOverwrite (s : PyDict) (u : PyDict) : PyDict :=
  u.foldl (fun acc kv => dictSet acc kv.1 kv.2) s

/-- Modelled from the spec: the `operator.add` reducer of the parent
example (`foo: Annotated[str, operator.add]`) — each key of the update is
appended to the state's existing value (empty when absent). The library's
reducer machinery is not among the provided source files. -/
def applyAdd (s : PyDict) (u : PyDict) : PyDict :=
  u.foldl (fun acc kv => dictSet acc kv.1 ((dictGet acc kv.1).getD "" ++ kv.2)) s

/-- Modelled from the spec: `graph.invoke` for the compiled basic-usage
graph, whose scheduler is not among the provided source files. `START`
leads to `node_a`; its `Command`'s update is applied to the state before
the `goto` target runs; that node's returned dict is then applied. The
result is the trace of `(node name, state the node observed)` pairs and
the final state (`none` for an uncaught `KeyError`). -/
def runBasic (s0 : PyDict) (g : Nat) : List (String × PyDict) × Option PyDict :=
  let cmd := Basic.node_a s0 g
  let s1 := applyOverwrite s0 cmd.update
  if cmd.goto = "node_b" then
    ([("node_a", s0), ("node_b", s1)], (Basic.node_b s1).map (applyOverwrite s1))
  else if cmd.goto = "node_c" then
    ([("node_a", s0), ("node_c", s1)], (Basic.node_c s1).map (applyOverwrite s1))
  else
    ([("node_a", s0)], none)

/-- Modelled from the spec: `graph.invoke` for the parent graph, whose
scheduler and subgraph runtime are not among the provided source files.
`START` leads to the `"subgraph"` node, which runs `node_a`; because the
returned `Command` carries `graph=Command.PARENT`, its `goto` is resolved
against the parent graph's nodes, while the update is applied to the
shared state through the parent's `operator.add` reducer; the chosen
parent node's dict is applied the same way. -/
def runParent (s0 : PyDict) (g : Nat) : List (String × PyDict) × PyDict :=
  let cmd := Parent.node_a s0 g
  let s1 := applyAdd s0 cmd.update
  if cmd.graph = Command.PARENT then
    if cmd.goto = "node_b" then
      ([("node_a", s0), ("node_b", s1)], applyAdd s1 (Parent.node_b s1))
    else if cmd.goto = "node_c" then
      ([("node_a", s0), ("node_c", s1)], applyAdd s1 (Parent.node_c s1))
    else
      ([("node_a", s0)], s1)
  else
    ([("node_a", s0)], s1)

theorem random_choice_ab (g : Nat) :
    random_choice ["a", "b"] g = "a" ∨ random_choice ["a", "b"] g = "b" := by
  unfold random_choice
  rcases Nat.mod_two_eq_zero_or_one g with h | h <;> simp [h]

theorem dictGet_dictSet_self (s : PyDict) (k v : String) :
    dictGet (dictSet s k v) k = some v := by
  induction s with
  | nil => simp [dictSet, dictGet]
  | cons hd tl ih =>
      obtain ⟨k1, v1⟩ := hd
      by_cases h : k1 = k <;> simp [dictSet, dictGet, h, ih]

theorem dictGet_dictSet_ne (s : PyDict) (k v k2 : String) (h : k2 ≠ k) :
    dictGet (dictSet s k v) k2 = dictGet s k2 := by
  have hk : k ≠ k2 := fun hh => h hh.symm
  induction s with
  | nil => simp [dictSet, dictGet, hk]
  | cons hd tl ih =>
      obtain ⟨k1, v1⟩ := hd
      by_cases h1 : k1 = k
      · subst h1
        simp [dictSet, dictGet, hk]
      · simp [dictSet, dictGet, h1, ih]

/-- C1: for every input state and every oracle draw, the basic-usage
`node_a` returns a single `Command` whose update is `{"foo": v}` with `v`
the value chosen by `random.choice(["a", "b"])`, and whose `goto` is
`"node_b"` when `v = "a"` and `"node_c"` when `v = "b"`; in particular
`goto` is always one of the two declared targets. -/
theorem C1_node_a_command (s : PyDict) (g : Nat) :
    (Basic.node_a s g).update = [("foo", random_choice ["a", "b"] g)] ∧
    ((random_choice ["a", "b"] g = "a" ∧ (Basic.node_a s g).goto = "node_b") ∨
      (random_choice ["a", "b"] g = "b" ∧ (Basic.node_a s g).goto = "node_c")) ∧
    ((Basic.node_a s g).goto = "node_b" ∨ (Basic.node_a s g).goto = "node_c") := by
  rcases random_choice_ab g with h | h <;> simp [Basic.node_a, h]

/-- C2: on input `{"foo": ""}` the basic graph runs `node_a` first, the
update of its `Command` is applied before the `goto` target runs, then
exactly `node_b` (observing `foo = "a"`) with final state `{"foo": "ab"}`
when the chosen value is `"a"`, and exactly `node_c` (observing
`foo = "b"`) with final state `{"foo": "bc"}` when it is `"b"`. -/
theorem C2_basic_invoke (g : Nat) :
    (random_choice ["a", "b"] g = "a" →
      runBasic [("foo", "")] g =
        ([("node_a", [("foo", "")]), ("node_b", [("foo", "a")])],
          some [("foo", "ab")])) ∧
    (random_choice ["a", "b"] g = "b" →
      runBasic [("foo", "")] g =
        ([("node_a", [("foo", "")]), ("node_c", [("foo", "b")])],
          some [("foo", "bc")])) := by
  constructor <;> intro h <;> simp only [runBasic, Basic.node_a, h] <;> decide

/-- Witness for C2 at the concrete draws `g = 0` (value `"a"`) and
`g = 1` (value `"b"`). -/
theorem C2_basic_invoke_witness :
    (random_choice ["a", "b"] 0 = "a" ∧
      runBasic [("foo", "")] 0 =
        ([("node_a", [("foo", "")]), ("node_b", [("foo", "a")])],
          some [("foo", "ab")])) ∧
    (random_choice ["a", "b"] 1 = "b" ∧
      runBasic [("foo", "")] 1 =
        ([("node_a", [("foo", "")]), ("node_c", [("foo", "b")])],
          some [("foo", "bc")])) :=
  ⟨⟨rfl, (C2_basic_invoke 0).1 rfl⟩, ⟨rfl, (C2_basic_invoke 1).2 rfl⟩⟩

/-- C3: the subgraph's `node_a` returns a `Command` with
`graph=Command.PARENT` for every state and draw, its `goto` is resolved
against the parent graph's nodes while its update `{"foo": v}` is applied
to the shared state; running the parent graph on `{"foo": ""}` executes
`node_a` inside the subgraph and then `node_b` or `node_c` in the parent,
ending in `{"foo": "ab"}` or `{"foo": "bc"}`. -/
theorem C3_parent_invoke (s : PyDict) (g : Nat) :
    (Parent.node_a s g).graph = Command.PARENT ∧
    (random_choice ["a", "b"] g = "a" →
      runParent [("foo", "")] g =
        ([("node_a", [("foo", "")]), ("node_b", [("foo", "a")])],
          [("foo", "ab")])) ∧
    (random_choice ["a", "b"] g = "b" →
      runParent [("foo", "")] g =
        ([("node_a", [("foo", "")]), ("node_c", [("foo", "b")])],
          [("foo", "bc")])) := by
  refine ⟨rfl, fun h => ?_, fun h => ?_⟩ <;>
    simp only [runParent, Parent.node_a, h] <;> decide

/-- Witness for C3 at `s = {"foo": ""}` and the draws `g = 0` and `g = 1`. -/
theorem C3_parent_invoke_witness :
    (Parent.node_a [("foo", "")] 0).graph = Command.PARENT ∧
    (random_choice ["a", "b"] 0 = "a" ∧
      runParent [("foo", "")] 0 =
        ([("node_a", [("foo", "")]), ("node_b", [("foo", "a")])],
          [("foo", "ab")])) ∧
    (random_choice ["a", "b"] 1 = "b" ∧
      runParent [("foo", "")] 1 =
        ([("node_a", [("foo", "")]), ("node_c", [("foo", "b")])],
          [("foo", "bc")])) :=
  ⟨(C3_parent_invoke [("foo", "")] 0).1,
    ⟨rfl, (C3_parent_invoke [("foo", "")] 0).2.1 rfl⟩,
    ⟨rfl, (C3_parent_invoke [("foo", "")] 1).2.2 rfl⟩⟩

/-- C4: conditioned on the chosen value `v`, the basic graph and the
parent/subgraph graph are equivalent as input/output relations on
`{"foo": ""}`: both end in `{"foo": "ab"}` when `v = "a"` and in
`{"foo": "bc"}` when `v = "b"`. -/
theorem C4_examples_equivalent (g : Nat) :
    (runBasic [("foo", "")] g).2 = some (runParent [("foo", "")] g).2 ∧
    (runParent [("foo", "")] g).2 =
      (if random_choice ["a", "b"] g = "a" then [("foo", "ab")]
        else [("foo", "bc")]) := by
  rcases random_choice_ab g with h | h <;>
    simp only [runBasic, runParent, Basic.node_a, Parent.node_a, h] <;> decide

/-- C5: no node function of either example signals an error: whenever the
input state binds the key `"foo"` to a string, the basic `node_b` and
`node_c` return normally (their `state["foo"]` lookups succeed), and the
parent-example `node_b` and `node_c` (which read no key) return their
constant updates; `node_a` of both examples always returns a `Command`. -/
theorem C5_no_failure (s : PyDict) (x : String) (h : dictGet s "foo" = some x)
    (g : Nat) :
    Basic.node_b s = some [("foo", x ++ "b")] ∧
    Basic.node_c s = some [("foo", x ++ "c")] ∧
    Parent.node_b s = [("foo", "b")] ∧
    Parent.node_c s = [("foo", "c")] ∧
    (Basic.node_a s g).update = [("foo", random_choice ["a", "b"] g)] ∧
    (Parent.node_a s g).update = [("foo", random_choice ["a", "b"] g)] := by
  simp [Basic.node_b, Basic.node_c, Parent.node_b, Parent.node_c,
    Basic.node_a, Parent.node_a, h]

/-- Witness for C5 at `s = {"foo": ""}`, `x = ""`, `g = 0`. -/
theorem C5_no_failure_witness :
    dictGet [("foo", "")] "foo" = some "" ∧
    Basic.node_b [("foo", "")] = some [("foo", "" ++ "b")] :=
  ⟨rfl, (C5_no_failure [("foo", "")] "" rfl 0).1⟩

/-- C7: the subgraph builder holds exactly one node, `node_a`, reached by
an edge from `START`; the parent builder holds it as the single node
`"subgraph"` and its only fixed edge goes from `START` to that node; and
every run of the parent graph invokes `node_a` exactly once, before the
one parent node (`node_b` or `node_c`) that runs. -/
theorem C7_parent_structure :
    Parent.subgraphBuilder.nodes = ["node_a"] ∧
    Parent.subgraphBuilder.edges = [(START, "node_a")] ∧
    Parent.builder.nodes = ["subgraph", "node_b", "node_c"] ∧
    Parent.builder.edges = [(START, "subgraph")] ∧
    ∀ s g, ∃ nxt, (nxt = "node_b" ∨ nxt = "node_c") ∧
      (runParent s g).1.map Prod.fst = ["node_a", nxt] := by
  refine ⟨rfl, rfl, rfl, rfl, fun s g => ?_⟩
  rcases random_choice_ab g with h | h
  · exact ⟨"node_b", Or.inl rfl, by
      simp [runParent, Parent.node_a, Command.PARENT, h]⟩
  · exact ⟨"node_c", Or.inr rfl, by
      simp [runParent, Parent.node_a, Command.PARENT, h]⟩

/-- C8: all nondeterminism is confined to the `random.choice(["a", "b"])`
draw in `node_a`: two oracle draws yielding the same chosen value give the
same `node_a` output (in both examples) and the same whole-graph run;
`node_b` and `node_c` take no random input at all in this embedding, so
their outputs depend only on the input state. -/
theorem C8_nondeterminism_confined (s : PyDict) (g g2 : Nat)
    (h : random_choice ["a", "b"] g = random_choice ["a", "b"] g2) :
    Basic.node_a s g = Basic.node_a s g2 ∧
    Parent.node_a s g = Parent.node_a s g2 ∧
    runBasic s g = runBasic s g2 ∧
    runParent s g = runParent s g2 := by
  refine ⟨?_, ?_, ?_, ?_⟩ <;>
    simp only [runBasic, runParent, Basic.node_a, Parent.node_a] <;> rw [h]

/-- Witness for C8: the draws `g = 0` and `g = 2` both choose `"a"`. -/
theorem C8_nondeterminism_confined_witness :
    random_choice ["a", "b"] 0 = random_choice ["a", "b"] 2 ∧
    runBasic [("foo", "")] 0 = runBasic [("foo", "")] 2 ∧
    runParent [("foo", "")] 0 = runParent [("foo", "")] 2 :=
  ⟨rfl, (C8_nondeterminism_confined [("foo", "")] 0 2 rfl).2.2.1,
    (C8_nondeterminism_confined [("foo", "")] 0 2 rfl).2.2.2⟩

/-- C9: every update produced by every node of both examples mentions only
the key `"foo"`, and a whole run of either graph leaves every other key of
the state unchanged between the input and the final state. -/
theorem C9_frame (s : PyDict) (g : Nat) (k : String) (hk : k ≠ "foo") :
    dictKeys (Basic.node_a s g).update = ["foo"] ∧
    dictKeys (Parent.node_a s g).update = ["foo"] ∧
    (∀ u, Basic.node_b s = some u → dictKeys u = ["foo"]) ∧
    (∀ u, Basic.node_c s = some u → dictKeys u = ["foo"]) ∧
    dictKeys (Parent.node_b s) = ["foo"] ∧
    dictKeys (Parent.node_c s) = ["foo"] ∧
    (∀ f, (runBasic s g).2 = some f → dictGet f k = dictGet s k) ∧
    dictGet (runParent s g).2 k = dictGet s k := by
  have hfr : ∀ (t : PyDict) (v : String),
      dictGet (dictSet t "foo" v) k = dictGet t k :=
    fun t v => dictGet_dictSet_ne t "foo" v k hk
  refine ⟨by simp [Basic.node_a, dictKeys], by simp [Parent.node_a, dictKeys],
    fun u hu => ?_, fun u hu => ?_, by simp [Parent.node_b, dictKeys],
    by simp [Parent.node_c, dictKeys], fun f hf => ?_, ?_⟩
  · cases hd : dictGet s "foo" with
    | none => simp [Basic.node_b, hd] at hu
    | some x =>
        simp [Basic.node_b, hd] at hu
        subst hu
        simp [dictKeys]
  · cases hd : dictGet s "foo" with
    | none => simp [Basic.node_c, hd] at hu
    | some x =>
        simp [Basic.node_c, hd] at hu
        subst hu
        simp [dictKeys]
  · rcases random_choice_ab g with h | h <;>
      · simp [runBasic, Basic.node_a, Basic.node_b, Basic.node_c,
          applyOverwrite, h, dictGet_dictSet_self] at hf
        subst hf
        rw [hfr, hfr]
  · rcases random_choice_ab g with h | h <;>
      · simp [runParent, Parent.node_a, Parent.node_b, Parent.node_c,
          applyAdd, Command.PARENT, h, dictGet_dictSet_self]
        rw [hfr, hfr]

/-- Witness for C9 at `s = {"foo": "", "bar": "z"}`, `g = 0`, `k = "bar"`:
the key `"bar"` still holds `"z"` after both runs. -/
theorem C9_frame_witness :
    ("bar" : String) ≠ "foo" ∧
    dictGet (runParent [("foo", ""), ("bar", "z")] 0).2 "bar" =
      dictGet [("foo", ""), ("bar", "z")] "bar" :=
  ⟨by decide,
    (C9_frame [("foo", ""), ("bar", "z")] 0 "bar" (by decide)).2.2.2.2.2.2.2⟩
